import Mathlib

/-!
# tpm2_policylocality

A shallow embedding of `tools/tpm2_policylocality.c`: the command context, the
option and argument callbacks, and the run and stop callbacks, written as state
passing over an explicit world that holds the state behind the ESYS context, the
order of the calls made to other modules, standard output and the files written.
-/

namespace PolicyLocality

/-! ## Data model -/

/-- Modelled from the spec: the `tool_rc` enumeration is declared in `tpm2_tool.h`,
which is not part of the sources at hand. The spec gives the exit status as
success, a distinct code for usage or argument errors and a distinct code for any
failure while talking to the session or policy engine; these are the three
enumerators the command names. -/
inductive tool_rc where
  | tool_rc_success
  | tool_rc_general_error
  | tool_rc_option_error
  deriving DecidableEq

/-- The `TPM2B_DIGEST` of the TSS headers: a byte count and a byte buffer. Bytes are
naturals below 256. -/
structure TPM2B_DIGEST where
  size : Nat
  buffer : List Nat
  deriving DecidableEq

/-- The session object of the session subsystem; the command only ever holds a
pointer to it, so it is represented by an identifying number. -/
structure tpm2_session where
  handle : Nat
  deriving DecidableEq

/-- The `struct tpm2_policylocality_ctx` of the command. Pointers that may be NULL
are options; `TPMA_LOCALITY` is an 8-bit unsigned integer. -/
structure tpm2_policylocality_ctx where
  session_path : Option String
  locality : Nat
  out_policy_dgst_path : Option String
  policy_digest : Option TPM2B_DIGEST
  session : Option tpm2_session
  deriving DecidableEq

/-- The value of `static tpm2_policylocality_ctx ctx;` at program start: all zero. -/
def ctx : tpm2_policylocality_ctx :=
  { session_path := none, locality := 0, out_policy_dgst_path := none,
    policy_digest := none, session := none }

/-- One call made by the command to another module, with the arguments passed. -/
inductive Call where
  | LOG_ERR (msg : String)
  | tpm2_session_restore (path : Option String) (is_final : Bool)
  | tpm2_policy_build_policylocality (session : tpm2_session) (locality : Nat)
  | tpm2_policy_get_digest (session : tpm2_session)
  | tpm2_util_hexdump (data : List Nat) (len : Nat)
  | tpm2_tool_output (text : String)
  | files_save_bytes_to_file (path : String) (buf : List Nat) (size : Nat)
  | free (ptr : Option TPM2B_DIGEST)
  | tpm2_session_close (session : Option tpm2_session)
  deriving DecidableEq

/-- The world the command runs in: the state reached through `ESYS_CONTEXT *ectx`,
the calls made so far (oldest first), the text on standard output, and the content
of the files. -/
structure World (σ : Type) where
  ectx : σ
  trace : List Call
  stdout : String
  files : String → Option (List Nat)

/-- The answers of the modules the command calls into. Each takes the state behind
the ESYS context and the arguments of the call and gives the result and the next
state. `tpm2_policy_get_digest` answers `some d` when it succeeds and stores `d`
through its out-pointer, `none` when it fails and leaves the pointer alone.
`tpm2_session_close` receives the pointer held in the context and answers the
status and the pointer it leaves there. `file_writable` tells whether a write to a
path succeeds. `numeral` is the reading of a numeric string by the conversion
routines of the utility library: the number the string denotes, in decimal or in
whatever other numeric form the library reads, `none` when it denotes none. -/
structure Env (σ : Type) where
  session_restore : σ → Option String → Bool → Option tpm2_session × σ
  policy_build_policylocality : σ → tpm2_session → Nat → Bool × σ
  policy_get_digest : σ → tpm2_session → Option TPM2B_DIGEST × σ
  session_close : σ → Option tpm2_session → tool_rc × Option tpm2_session × σ
  file_writable : σ → String → Bool
  numeral : String → Option Nat

/-- What a callback returns together with the context and world it leaves. -/
structure Outcome (α σ : Type) where
  ret : α
  ctx : tpm2_policylocality_ctx
  world : World σ

/-! ## The modules called -/

/-- The `LOG_ERR` of `log.h`: the message goes to the error log, not to standard
output. -/
def LOG_ERR {σ : Type} (msg : String) (w : World σ) : World σ :=
  { w with trace := w.trace ++ [Call.LOG_ERR msg] }

/-- Modelled from the spec: `tpm2_util_string_to_uint8` is defined in the utility
library, not in the sources at hand. The spec asks that the argument parse as a
numeric string (decimal or otherwise numeric) whose value fits an unsigned 8-bit
integer, 0 to 255, and be rejected otherwise. Which strings are numeric and what
they denote is the `numeral` reading it is given. The result is `some v` when the
conversion succeeds and stores `v`, `none` when it fails and stores nothing. A
NULL string fails. -/
def tpm2_util_string_to_uint8 (numeral : String → Option Nat) (str : Option String) :
    Option Nat :=
  match str with
  | none => none
  | some s =>
    match numeral s with
    | some v => if v ≤ 255 then some v else none
    | none => none

/-- Two hexadecimal digits of one byte, high nibble first. -/
def byteHex (b : Nat) : String :=
  String.mk [Nat.digitChar (b / 16 % 16), Nat.digitChar (b % 16)]

/-- Hexadecimal encoding of a byte sequence: two lowercase digits per byte, nothing
in between. -/
def hexEncoding (bytes : List Nat) : String :=
  String.join (bytes.map byteHex)

/-- Modelled from the spec: `tpm2_util_hexdump` is defined in the utility library,
not in the sources at hand. The spec has it render the bytes as hexadecimal to
standard output; it prints the first `len` bytes of `data`. -/
def tpm2_util_hexdump {σ : Type} (data : List Nat) (len : Nat) (w : World σ) : World σ :=
  { w with
    trace := w.trace ++ [Call.tpm2_util_hexdump data len]
    stdout := w.stdout ++ hexEncoding (data.take len) }

/-- Modelled from the spec: `tpm2_tool_output` is declared in `tpm2_tool.h`, not in
the sources at hand; it prints its text to standard output. -/
def tpm2_tool_output {σ : Type} (text : String) (w : World σ) : World σ :=
  { w with
    trace := w.trace ++ [Call.tpm2_tool_output text]
    stdout := w.stdout ++ text }

/-- Modelled from the spec: `files_save_bytes_to_file` is defined in the files
library, not in the sources at hand. The spec has it write the raw bytes to the
path, overwriting any existing content; when the write fails the files are left as
they were. -/
def files_save_bytes_to_file {σ : Type} (E : Env σ) (path : String) (buf : List Nat)
    (size : Nat) (w : World σ) : Bool × World σ :=
  let w1 := { w with trace := w.trace ++ [Call.files_save_bytes_to_file path buf size] }
  if E.file_writable w.ectx path then
    (true, { w1 with files := fun q => if q = path then some (buf.take size) else w.files q })
  else
    (false, w1)

/-- Call of `tpm2_session_restore(ectx, path, is_final)`. -/
def tpm2_session_restore {σ : Type} (E : Env σ) (path : Option String) ( is_final : Bool)
    (w : World σ) : Option tpm2_session × World σ :=
  let r := E.session_restore w.ectx path is_final
  (r.1, { w with ectx := r.2, trace := w.trace ++ [Call.tpm2_session_restore path is_final] })

/-- Call of `tpm2_policy_build_policylocality(ectx, session, locality)`. -/
def tpm2_policy_build_policylocality {σ : Type} (E : Env σ) (session : tpm2_session)
    (locality : Nat) (w : World σ) : Bool × World σ :=
  let r := E.policy_build_policylocality w.ectx session locality
  (r.1, { w with
          ectx := r.2
          trace := w.trace ++ [Call.tpm2_policy_build_policylocality session locality] })

/-- Call of `tpm2_policy_get_digest(ectx, session, &digest)`. -/
def tpm2_policy_get_digest {σ : Type} (E : Env σ) (session : tpm2_session)
    (w : World σ) : Option TPM2B_DIGEST × World σ :=
  let r := E.policy_get_digest w.ectx session
  (r.1, { w with ectx := r.2, trace := w.trace ++ [Call.tpm2_policy_get_digest session] })

/-- Call of `free(ptr)`. -/
def free {σ : Type} (ptr : Option TPM2B_DIGEST) (w : World σ) : World σ :=
  { w with trace := w.trace ++ [Call.free ptr] }

/-- Call of `tpm2_session_close(&session)`. -/
def tpm2_session_close {σ : Type} (E : Env σ) (session : Option tpm2_session)
    (w : World σ) : tool_rc × Option tpm2_session × World σ :=
  let r := E.session_close w.ectx session
  (r.1, r.2.1, { w with ectx := r.2.2, trace := w.trace ++ [Call.tpm2_session_close session] })

/-! ## The command -/

/-- The `on_option` callback. -/
def on_option (key : Char) (value : String) (c : tpm2_policylocality_ctx) :
    Bool × tpm2_policylocality_ctx :=
  if key = 'S' then (true, { c with session_path := some value })
  else if key = 'o' then (true, { c with out_policy_dgst_path := some value })
  else (true, c)

/-- The `is_input_option_args_valid` check. -/
def is_input_option_args_valid {σ : Type} (c : tpm2_policylocality_ctx) (w : World σ) :
    Bool × World σ :=
  match c.session_path with
  | none => (false, LOG_ERR "Must specify -S session file." w)
  | some _ => (true, w)

/-- The `on_arg` callback. `argv[0]` is the head of `argv`, NULL when there is
none. -/
def on_arg {σ : Type} (E : Env σ) (argc : Int) (argv : List String)
    (c : tpm2_policylocality_ctx) (w : World σ) : Outcome Bool σ :=
  if argc > 1 then
    ⟨false, c, LOG_ERR "Specify only the TPM2 locality." w⟩
  else if argc = 0 then
    ⟨false, c, LOG_ERR "TPM2 locality must be specified." w⟩
  else
    match tpm2_util_string_to_uint8 E.numeral argv.head? with
    | none =>
      ⟨false, c,
        LOG_ERR ("Could not convert locality to number, got: \"" ++ (argv.head?.getD "") ++ "\"") w⟩
    | some v => ⟨true, { c with locality := v }, w⟩

/-- The `tpm2_tool_onrun` callback. -/
def tpm2_tool_onrun {σ : Type} (E : Env σ) (c : tpm2_policylocality_ctx) (w : World σ) :
    Outcome tool_rc σ :=
  let retval := is_input_option_args_valid c w
  if retval.1 = false then
    ⟨tool_rc.tool_rc_option_error, c, retval.2⟩
  else
    let r := tpm2_session_restore E c.session_path false retval.2
    let c1 := { c with session := r.1 }
    match r.1 with
    | none => ⟨tool_rc.tool_rc_general_error, c1, r.2⟩
    | some session =>
      let b := tpm2_policy_build_policylocality E session c1.locality r.2
      if b.1 = false then
        ⟨tool_rc.tool_rc_general_error, c1, LOG_ERR "Could not build TPM policy_locality" b.2⟩
      else
        let g := tpm2_policy_get_digest E session b.2
        match g.1 with
        | none =>
          ⟨tool_rc.tool_rc_general_error, c1, LOG_ERR "Could not build tpm policy" g.2⟩
        | some d =>
          let c2 := { c1 with policy_digest := some d }
          let w1 := tpm2_util_hexdump d.buffer d.size g.2
          let w2 := tpm2_tool_output "\n" w1
          match c2.out_policy_dgst_path with
          | none => ⟨tool_rc.tool_rc_success, c2, w2⟩
          | some path =>
            let s := files_save_bytes_to_file E path d.buffer d.size w2
            if s.1 = false then
              ⟨tool_rc.tool_rc_general_error, c2,
                LOG_ERR ("Failed to save policy digest into file \"" ++ path ++ "\"") s.2⟩
            else
              ⟨tool_rc.tool_rc_success, c2, s.2⟩

/-- The `tpm2_tool_onstop` callback. -/
def tpm2_tool_onstop {σ : Type} (E : Env σ) (c : tpm2_policylocality_ctx) (w : World σ) :
    Outcome tool_rc σ :=
  let w1 := free c.policy_digest w
  let r := tpm2_session_close E c.session w1
  ⟨r.1, { c with session := r.2.1 }, r.2.2⟩

/-- One invocation: `tpm2_tool_onrun` followed by `tpm2_tool_onstop` on the context
and world the run leaves. -/
def lifecycle {σ : Type} (E : Env σ) (c : tpm2_policylocality_ctx) (w : World σ) :
    Outcome tool_rc σ :=
  let r := tpm2_tool_onrun E c w
  tpm2_tool_onstop E r.ctx r.world

/-! ## Reading the order of calls -/

/-- The calls made between an earlier world and a later one. -/
def callsSince {σ : Type} (before after : World σ) : List Call :=
  after.trace.drop before.trace.length

/-- Is the call a `free`? -/
def Call.isFree : Call → Bool
  | Call.free _ => true
  | _ => false

/-- Is the call a `tpm2_session_close`? -/
def Call.isSessionClose : Call → Bool
  | Call.tpm2_session_close _ => true
  | _ => false

/-- Is the call a `files_save_bytes_to_file`? -/
def Call.isFileSave : Call → Bool
  | Call.files_save_bytes_to_file _ _ _ => true
  | _ => false

/-- Is the call a `LOG_ERR`? -/
def Call.isLog : Call → Bool
  | Call.LOG_ERR _ => true
  | _ => false

/-! ## Sample environment -/

/-- Value of a digit character: `0` to `9`, and `a` to `f` in either case for ten
to fifteen. -/
def digitValue (ch : Char) : Option Nat :=
  if 48 ≤ ch.toNat ∧ ch.toNat ≤ 57 then some (ch.toNat - 48)
  else if 97 ≤ ch.toNat ∧ ch.toNat ≤ 102 then some (ch.toNat - 87)
  else if 65 ≤ ch.toNat ∧ ch.toNat ≤ 70 then some (ch.toNat - 55)
  else none

/-- Reads digits of the given base left to right onto an accumulator; `none` at the
first character that is not a digit of that base. -/
def digitsFrom (base acc : Nat) : List Char → Option Nat
  | [] => some acc
  | ch :: rest =>
    match digitValue ch with
    | some d => if d < base then digitsFrom base (acc * base + d) rest else none
    | none => none

/-- An unsigned numeral in the C forms: `0x` or `0X` and hexadecimal digits, a
leading `0` and octal digits, or decimal digits. -/
def unsignedNumeral : List Char → Option Nat
  | [] => none
  | ch :: rest =>
    if ch = '0' then
      match rest with
      | [] => some 0
      | x :: more =>
        if (x = 'x' ∨ x = 'X') ∧ more ≠ [] then digitsFrom 16 0 more
        else digitsFrom 8 0 (x :: more)
    else digitsFrom 10 0 (ch :: rest)

/-- A numeral reading for the sample environment: an optional `+` and an unsigned
numeral in decimal, hexadecimal or octal. -/
def cNumeral (str : String) : Option Nat :=
  match str.data with
  | [] => none
  | ch :: rest => if ch = '+' then unsignedNumeral rest else unsignedNumeral (ch :: rest)

/-- A small environment over a counter of TPM exchanges: restore hands out session
number 7, the digest is three bytes of a four-byte buffer, each step succeeds or
fails as the four flags say, and numerals are read by `cNumeral`. -/
def sampleEnv (restoreOk buildOk digestOk writeOk : Bool) : Env Nat :=
  { session_restore := fun t _ _ => (if restoreOk then some ⟨7⟩ else none, t + 1)
    policy_build_policylocality := fun t _ _ => (buildOk, t + 1)
    policy_get_digest := fun t _ =>
      (if digestOk then some ⟨3, [222, 173, 190, 239]⟩ else none, t + 1)
    session_close := fun t _ => (tool_rc.tool_rc_success, none, t + 1)
    file_writable := fun _ _ => writeOk
    numeral := cNumeral }

/-- An empty world: no call made yet, nothing printed, no file. -/
def sampleWorld : World Nat :=
  { ectx := 0, trace := [], stdout := "", files := fun _ => none }

/-- The context after `-S session.ctx` and a locality of 3. -/
def sampleCtx : tpm2_policylocality_ctx :=
  { ctx with session_path := some "session.ctx", locality := 3 }

/-- The context after `-S session.ctx -o policy.bin` and a locality of 3. -/
def sampleCtxOut : tpm2_policylocality_ctx :=
  { sampleCtx with out_policy_dgst_path := some "policy.bin" }

/-! ## Argument parsing -/

/-- C1: when no session path was set, whatever the locality, the output path and
the answers of the other modules, `tpm2_tool_onrun` returns the option-error status
and the only call it makes is the error log of the validation: no session restore,
no policy-engine call, no hex dump and no file write; the state behind the ESYS
context, standard output, the files and the context are left as they were. -/
theorem C1_missing_session_path_is_option_error {σ : Type} (E : Env σ)
    (c : tpm2_policylocality_ctx) (w : World σ) (h : c.session_path = none) :
    (tpm2_tool_onrun E c w).ret = tool_rc.tool_rc_option_error ∧
    (tpm2_tool_onrun E c w).world.trace
      = w.trace ++ [Call.LOG_ERR "Must specify -S session file."] ∧
    (tpm2_tool_onrun E c w).world.ectx = w.ectx ∧
    (tpm2_tool_onrun E c w).world.stdout = w.stdout ∧
    (tpm2_tool_onrun E c w).world.files = w.files ∧
    (tpm2_tool_onrun E c w).ctx = c := by
  simp [tpm2_tool_onrun, is_input_option_args_valid, h, LOG_ERR]

theorem C1_missing_session_path_is_option_error_witness :
    (tpm2_tool_onrun (sampleEnv true true true true)
        { ctx with locality := 200, out_policy_dgst_path := some "policy.bin" } sampleWorld).ret
      = tool_rc.tool_rc_option_error ∧
    (tpm2_tool_onrun (sampleEnv true true true true)
        { ctx with locality := 200, out_policy_dgst_path := some "policy.bin" }
        sampleWorld).world.trace
      = [Call.LOG_ERR "Must specify -S session file."] :=
  ⟨(C1_missing_session_path_is_option_error (sampleEnv true true true true)
      { ctx with locality := 200, out_policy_dgst_path := some "policy.bin" } sampleWorld rfl).1,
   (C1_missing_session_path_is_option_error (sampleEnv true true true true)
      { ctx with locality := 200, out_policy_dgst_path := some "policy.bin" } sampleWorld rfl).2.1⟩

/-- C2: `on_arg` called with `argc` the number of entries of `argv`: when `argc` is
not 1 (zero, or more than one) it returns false and leaves the whole context, the
locality included, as it was; so it returns true only when `argc` is 1. -/
theorem C2_on_arg_needs_exactly_one_argument {σ : Type} (E : Env σ) (argc : Int)
    (argv : List String) (c : tpm2_policylocality_ctx) (w : World σ)
    (hlen : argc = argv.length) :
    (argc ≠ 1 → (on_arg E argc argv c w).ret = false ∧ (on_arg E argc argv c w).ctx = c) ∧
    ((on_arg E argc argv c w).ret = true → argc = 1) := by
  have key : argc ≠ 1 →
      (on_arg E argc argv c w).ret = false ∧ (on_arg E argc argv c w).ctx = c := by
    intro hne
    have hnn : (0 : Int) ≤ argc := by rw [hlen]; exact Int.natCast_nonneg _
    unfold on_arg
    by_cases h1 : argc > 1
    · simp [h1]
    · have h0 : argc = 0 := by omega
      simp [h0]
  refine ⟨key, ?_⟩
  intro ht
  by_contra hne
  rw [(key hne).1] at ht
  exact Bool.noConfusion ht

theorem C2_on_arg_needs_exactly_one_argument_witness :
    (on_arg (sampleEnv true true true true) 2 ["1", "2"] ctx sampleWorld).ret = false ∧
    (on_arg (sampleEnv true true true true) 2 ["1", "2"] ctx sampleWorld).ctx = ctx :=
  (C2_on_arg_needs_exactly_one_argument (sampleEnv true true true true) 2 ["1", "2"] ctx
    sampleWorld rfl).1 (by decide)

/-- The calls made on each way through `tpm2_tool_onrun`, by what the other modules
answer. -/
theorem onrun_no_session_path {σ : Type} (E : Env σ) (c : tpm2_policylocality_ctx)
    (w : World σ) (hp : c.session_path = none) :
    tpm2_tool_onrun E c w
      = ⟨tool_rc.tool_rc_option_error, c, LOG_ERR "Must specify -S session file." w⟩ := by
  simp [tpm2_tool_onrun, is_input_option_args_valid, hp]

theorem onrun_restore_fails {σ : Type} (E : Env σ) (c : tpm2_policylocality_ctx)
    (w : World σ) (p : String) (t1 : σ) (hp : c.session_path = some p)
    (hr : E.session_restore w.ectx (some p) false = (none, t1)) :
    tpm2_tool_onrun E c w
      = ⟨tool_rc.tool_rc_general_error, { c with session := none },
          { w with ectx := t1, trace := w.trace ++ [Call.tpm2_session_restore (some p) false] }⟩ := by
  simp [tpm2_tool_onrun, is_input_option_args_valid, hp, tpm2_session_restore, hr]

theorem onrun_build_fails {σ : Type} (E : Env σ) (c : tpm2_policylocality_ctx)
    (w : World σ) (p : String) (s : tpm2_session) (t1 t2 : σ) (hp : c.session_path = some p)
    (hr : E.session_restore w.ectx (some p) false = (some s, t1))
    (hb : E.policy_build_policylocality t1 s c.locality = (false, t2)) :
    tpm2_tool_onrun E c w
      = ⟨tool_rc.tool_rc_general_error, { c with session := some s },
          { w with
            ectx := t2
            trace := w.trace ++ [Call.tpm2_session_restore (some p) false,
              Call.tpm2_policy_build_policylocality s c.locality,
              Call.LOG_ERR "Could not build TPM policy_locality"] }⟩ := by
  simp [tpm2_tool_onrun, is_input_option_args_valid, hp, tpm2_session_restore, hr,
    tpm2_policy_build_policylocality, hb, LOG_ERR]

theorem onrun_digest_fails {σ : Type} (E : Env σ) (c : tpm2_policylocality_ctx)
    (w : World σ) (p : String) (s : tpm2_session) (t1 t2 t3 : σ)
    (hp : c.session_path = some p)
    (hr : E.session_restore w.ectx (some p) false = (some s, t1))
    (hb : E.policy_build_policylocality t1 s c.locality = (true, t2))
    (hd : E.policy_get_digest t2 s = (none, t3)) :
    tpm2_tool_onrun E c w
      = ⟨tool_rc.tool_rc_general_error, { c with session := some s },
          { w with
            ectx := t3
            trace := w.trace ++ [Call.tpm2_session_restore (some p) false,
              Call.tpm2_policy_build_policylocality s c.locality,
              Call.tpm2_policy_get_digest s,
              Call.LOG_ERR "Could not build tpm policy"] }⟩ := by
  simp [tpm2_tool_onrun, is_input_option_args_valid, hp, tpm2_session_restore, hr,
    tpm2_policy_build_policylocality, hb, tpm2_policy_get_digest, hd, LOG_ERR]

theorem onrun_no_out_path {σ : Type} (E : Env σ) (c : tpm2_policylocality_ctx)
    (w : World σ) (p : String) (s : tpm2_session) (d : TPM2B_DIGEST) (t1 t2 t3 : σ)
    (hp : c.session_path = some p)
    (hr : E.session_restore w.ectx (some p) false = (some s, t1))
    (hb : E.policy_build_policylocality t1 s c.locality = (true, t2))
    (hd : E.policy_get_digest t2 s = (some d, t3))
    (ho : c.out_policy_dgst_path = none) :
    tpm2_tool_onrun E c w
      = ⟨tool_rc.tool_rc_success, { c with session := some s, policy_digest := some d },
          { w with
            ectx := t3
            trace := w.trace ++ [Call.tpm2_session_restore (some p) false,
              Call.tpm2_policy_build_policylocality s c.locality,
              Call.tpm2_policy_get_digest s,
              Call.tpm2_util_hexdump d.buffer d.size,
              Call.tpm2_tool_output "\n"]
            stdout := w.stdout ++ hexEncoding (d.buffer.take d.size) ++ "\n" }⟩ := by
  simp [tpm2_tool_onrun, is_input_option_args_valid, hp, tpm2_session_restore, hr,
    tpm2_policy_build_policylocality, hb, tpm2_policy_get_digest, hd, ho,
    tpm2_util_hexdump, tpm2_tool_output]

theorem onrun_write_succeeds {σ : Type} (E : Env σ) (c : tpm2_policylocality_ctx)
    (w : World σ) (p q : String) (s : tpm2_session) (d : TPM2B_DIGEST) (t1 t2 t3 : σ)
    (hp : c.session_path = some p)
    (hr : E.session_restore w.ectx (some p) false = (some s, t1))
    (hb : E.policy_build_policylocality t1 s c.locality = (true, t2))
    (hd : E.policy_get_digest t2 s = (some d, t3))
    (ho : c.out_policy_dgst_path = some q)
    (hw : E.file_writable t3 q = true) :
    tpm2_tool_onrun E c w
      = ⟨tool_rc.tool_rc_success, { c with session := some s, policy_digest := some d },
          { ectx := t3
            trace := w.trace ++ [Call.tpm2_session_restore (some p) false,
              Call.tpm2_policy_build_policylocality s c.locality,
              Call.tpm2_policy_get_digest s,
              Call.tpm2_util_hexdump d.buffer d.size,
              Call.tpm2_tool_output "\n",
              Call.files_save_bytes_to_file q d.buffer d.size]
            stdout := w.stdout ++ hexEncoding (d.buffer.take d.size) ++ "\n"
            files := fun r => if r = q then some (d.buffer.take d.size) else w.files r }⟩ := by
  simp [tpm2_tool_onrun, is_input_option_args_valid, hp, tpm2_session_restore, hr,
    tpm2_policy_build_policylocality, hb, tpm2_policy_get_digest, hd, ho,
    tpm2_util_hexdump, tpm2_tool_output, files_save_bytes_to_file, hw]

theorem onrun_write_fails {σ : Type} (E : Env σ) (c : tpm2_policylocality_ctx)
    (w : World σ) (p q : String) (s : tpm2_session) (d : TPM2B_DIGEST) (t1 t2 t3 : σ)
    (hp : c.session_path = some p)
    (hr : E.session_restore w.ectx (some p) false = (some s, t1))
    (hb : E.policy_build_policylocality t1 s c.locality = (true, t2))
    (hd : E.policy_get_digest t2 s = (some d, t3))
    (ho : c.out_policy_dgst_path = some q)
    (hw : E.file_writable t3 q = false) :
    tpm2_tool_onrun E c w
      = ⟨tool_rc.tool_rc_general_error, { c with session := some s, policy_digest := some d },
          { w with
            ectx := t3
            trace := w.trace ++ [Call.tpm2_session_restore (some p) false,
              Call.tpm2_policy_build_policylocality s c.locality,
              Call.tpm2_policy_get_digest s,
              Call.tpm2_util_hexdump d.buffer d.size,
              Call.tpm2_tool_output "\n",
              Call.files_save_bytes_to_file q d.buffer d.size,
              Call.LOG_ERR ("Failed to save policy digest into file \"" ++ q ++ "\"")]
            stdout := w.stdout ++ hexEncoding (d.buffer.take d.size) ++ "\n" }⟩ := by
  simp [tpm2_tool_onrun, is_input_option_args_valid, hp, tpm2_session_restore, hr,
    tpm2_policy_build_policylocality, hb, tpm2_policy_get_digest, hd, ho,
    tpm2_util_hexdump, tpm2_tool_output, files_save_bytes_to_file, hw, LOG_ERR]

theorem onrun_success_iff {σ : Type} (E : Env σ) (c : tpm2_policylocality_ctx)
    (w : World σ) :
    (tpm2_tool_onrun E c w).ret = tool_rc.tool_rc_success ↔
      ∃ p s t1 t2 d t3, c.session_path = some p ∧
        E.session_restore w.ectx (some p) false = (some s, t1) ∧
        E.policy_build_policylocality t1 s c.locality = (true, t2) ∧
        E.policy_get_digest t2 s = (some d, t3) ∧
        (c.out_policy_dgst_path = none ∨
          ∃ q, c.out_policy_dgst_path = some q ∧ E.file_writable t3 q = true) := by
  constructor
  · intro h
    cases hp : c.session_path with
    | none => rw [onrun_no_session_path E c w hp] at h; exact tool_rc.noConfusion h
    | some p =>
      rcases hr : E.session_restore w.ectx (some p) false with ⟨_ | s, t1⟩
      · rw [onrun_restore_fails E c w p t1 hp hr] at h; exact tool_rc.noConfusion h
      · rcases hb : E.policy_build_policylocality t1 s c.locality with ⟨_ | _, t2⟩
        · rw [onrun_build_fails E c w p s t1 t2 hp hr hb] at h; exact tool_rc.noConfusion h
        · rcases hd : E.policy_get_digest t2 s with ⟨_ | d, t3⟩
          · rw [onrun_digest_fails E c w p s t1 t2 t3 hp hr hb hd] at h
            exact tool_rc.noConfusion h
          · cases ho : c.out_policy_dgst_path with
            | none => exact ⟨p, s, t1, t2, d, t3, rfl, hr, hb, hd, Or.inl rfl⟩
            | some q =>
              cases hw : E.file_writable t3 q
              · rw [onrun_write_fails E c w p q s d t1 t2 t3 hp hr hb hd ho hw] at h
                exact tool_rc.noConfusion h
              · exact ⟨p, s, t1, t2, d, t3, rfl, hr, hb, hd, Or.inr ⟨q, rfl, hw⟩⟩
  · rintro ⟨p, s, t1, t2, d, t3, hp, hr, hb, hd, ho | ⟨q, ho, hw⟩⟩
    · rw [onrun_no_out_path E c w p s d t1 t2 t3 hp hr hb hd ho]
    · rw [onrun_write_succeeds E c w p q s d t1 t2 t3 hp hr hb hd ho hw]

theorem onrun_option_error_iff {σ : Type} (E : Env σ) (c : tpm2_policylocality_ctx)
    (w : World σ) :
    (tpm2_tool_onrun E c w).ret = tool_rc.tool_rc_option_error ↔ c.session_path = none := by
  constructor
  · intro h
    cases hp : c.session_path with
    | none => rfl
    | some p =>
      exfalso
      rcases hr : E.session_restore w.ectx (some p) false with ⟨_ | s, t1⟩
      · rw [onrun_restore_fails E c w p t1 hp hr] at h; exact tool_rc.noConfusion h
      · rcases hb : E.policy_build_policylocality t1 s c.locality with ⟨_ | _, t2⟩
        · rw [onrun_build_fails E c w p s t1 t2 hp hr hb] at h; exact tool_rc.noConfusion h
        · rcases hd : E.policy_get_digest t2 s with ⟨_ | d, t3⟩
          · rw [onrun_digest_fails E c w p s t1 t2 t3 hp hr hb hd] at h
            exact tool_rc.noConfusion h
          · cases ho : c.out_policy_dgst_path with
            | none =>
              rw [onrun_no_out_path E c w p s d t1 t2 t3 hp hr hb hd ho] at h
              exact tool_rc.noConfusion h
            | some q =>
              cases hw : E.file_writable t3 q
              · rw [onrun_write_fails E c w p q s d t1 t2 t3 hp hr hb hd ho hw] at h
                exact tool_rc.noConfusion h
              · rw [onrun_write_succeeds E c w p q s d t1 t2 t3 hp hr hb hd ho hw] at h
                exact tool_rc.noConfusion h
  · intro hp
    rw [onrun_no_session_path E c w hp]

theorem onrun_general_error_iff {σ : Type} (E : Env σ) (c : tpm2_policylocality_ctx)
    (w : World σ) :
    (tpm2_tool_onrun E c w).ret = tool_rc.tool_rc_general_error ↔
      ∃ p, c.session_path = some p ∧
        ((E.session_restore w.ectx (some p) false).1 = none ∨
          ∃ s t1, E.session_restore w.ectx (some p) false = (some s, t1) ∧
            ((E.policy_build_policylocality t1 s c.locality).1 = false ∨
              ∃ t2, E.policy_build_policylocality t1 s c.locality = (true, t2) ∧
                ((E.policy_get_digest t2 s).1 = none ∨
                  ∃ d t3, E.policy_get_digest t2 s = (some d, t3) ∧
                    ∃ q, c.out_policy_dgst_path = some q ∧ E.file_writable t3 q = false))) := by
  constructor
  · intro h
    cases hp : c.session_path with
    | none => rw [onrun_no_session_path E c w hp] at h; exact tool_rc.noConfusion h
    | some p =>
      refine ⟨p, rfl, ?_⟩
      rcases hr : E.session_restore w.ectx (some p) false with ⟨_ | s, t1⟩
      · exact Or.inl rfl
      · refine Or.inr ⟨s, t1, rfl, ?_⟩
        rcases hb : E.policy_build_policylocality t1 s c.locality with ⟨_ | _, t2⟩
        · exact Or.inl rfl
        · refine Or.inr ⟨t2, rfl, ?_⟩
          rcases hd : E.policy_get_digest t2 s with ⟨_ | d, t3⟩
          · exact Or.inl rfl
          · refine Or.inr ⟨d, t3, rfl, ?_⟩
            cases ho : c.out_policy_dgst_path with
            | none =>
              rw [onrun_no_out_path E c w p s d t1 t2 t3 hp hr hb hd ho] at h
              exact tool_rc.noConfusion h
            | some q =>
              cases hw : E.file_writable t3 q
              · exact ⟨q, rfl, hw⟩
              · rw [onrun_write_succeeds E c w p q s d t1 t2 t3 hp hr hb hd ho hw] at h
                exact tool_rc.noConfusion h
  · rintro ⟨p, hp, hr | ⟨s, t1, hr, hb | ⟨t2, hb, hd | ⟨d, t3, hd, q, ho, hw⟩⟩⟩⟩
    · rw [onrun_restore_fails E c w p _ hp (Prod.ext hr rfl)]
    · rw [onrun_build_fails E c w p s t1 _ hp hr (Prod.ext hb rfl)]
    · rw [onrun_digest_fails E c w p s t1 t2 _ hp hr hb (Prod.ext hd rfl)]
    · rw [onrun_write_fails E c w p q s d t1 t2 t3 hp hr hb hd ho hw]

/-- C4: `tpm2_tool_onrun` returns success exactly when the session path is set,
restore gives a session, the locality build succeeds on it, the digest retrieval
succeeds, and either no output path was given or the write to it succeeds; it
returns the option-error status exactly when the session path is missing; it
returns the general-error status exactly when the session path is set and restore,
the locality build, the digest retrieval or the file write fails. The three
statuses are pairwise distinct. -/
theorem C4_onrun_status {σ : Type} (E : Env σ) (c : tpm2_policylocality_ctx) (w : World σ) :
    ((tpm2_tool_onrun E c w).ret = tool_rc.tool_rc_success ↔
      ∃ p s t1 t2 d t3, c.session_path = some p ∧
        E.session_restore w.ectx (some p) false = (some s, t1) ∧
        E.policy_build_policylocality t1 s c.locality = (true, t2) ∧
        E.policy_get_digest t2 s = (some d, t3) ∧
        (c.out_policy_dgst_path = none ∨
          ∃ q, c.out_policy_dgst_path = some q ∧ E.file_writable t3 q = true)) ∧
    ((tpm2_tool_onrun E c w).ret = tool_rc.tool_rc_option_error ↔ c.session_path = none) ∧
    ((tpm2_tool_onrun E c w).ret = tool_rc.tool_rc_general_error ↔
      ∃ p, c.session_path = some p ∧
        ((E.session_restore w.ectx (some p) false).1 = none ∨
          ∃ s t1, E.session_restore w.ectx (some p) false = (some s, t1) ∧
            ((E.policy_build_policylocality t1 s c.locality).1 = false ∨
              ∃ t2, E.policy_build_policylocality t1 s c.locality = (true, t2) ∧
                ((E.policy_get_digest t2 s).1 = none ∨
                  ∃ d t3, E.policy_get_digest t2 s = (some d, t3) ∧
                    ∃ q, c.out_policy_dgst_path = some q ∧ E.file_writable t3 q = false)))) ∧
    tool_rc.tool_rc_success ≠ tool_rc.tool_rc_general_error ∧
    tool_rc.tool_rc_success ≠ tool_rc.tool_rc_option_error ∧
    tool_rc.tool_rc_general_error ≠ tool_rc.tool_rc_option_error := by
  exact ⟨onrun_success_iff E c w, onrun_option_error_iff E c w, onrun_general_error_iff E c w,
    by decide, by decide, by decide⟩

/-- C5: when the session is restored, the locality build succeeds and the digest
retrieval returns a digest `d`, the run adds to standard output exactly the
hexadecimal encoding of the first `d.size` bytes of `d.buffer` followed by one
newline, whether or not a file write was requested; on an empty standard output
that is the whole text. -/
theorem C5_stdout_is_hex_digest_and_newline {σ : Type} (E : Env σ)
    (c : tpm2_policylocality_ctx) (w : World σ) (p : String) (s : tpm2_session)
    (d : TPM2B_DIGEST) (t1 t2 t3 : σ)
    (hp : c.session_path = some p)
    (hr : E.session_restore w.ectx (some p) false = (some s, t1))
    (hb : E.policy_build_policylocality t1 s c.locality = (true, t2))
    (hd : E.policy_get_digest t2 s = (some d, t3)) :
    (tpm2_tool_onrun E c w).world.stdout
      = w.stdout ++ hexEncoding (d.buffer.take d.size) ++ "\n" := by
  cases ho : c.out_policy_dgst_path with
  | none => rw [onrun_no_out_path E c w p s d t1 t2 t3 hp hr hb hd ho]
  | some q =>
    cases hw : E.file_writable t3 q
    · rw [onrun_write_fails E c w p q s d t1 t2 t3 hp hr hb hd ho hw]
    · rw [onrun_write_succeeds E c w p q s d t1 t2 t3 hp hr hb hd ho hw]

theorem C5_stdout_is_hex_digest_and_newline_witness :
    (tpm2_tool_onrun (sampleEnv true true true true) sampleCtxOut sampleWorld).world.stdout
      = "" ++ hexEncoding ([222, 173, 190, 239].take 3) ++ "\n" ∧
    "" ++ hexEncoding ([222, 173, 190, 239].take 3) ++ "\n" = "deadbe\n" :=
  ⟨C5_stdout_is_hex_digest_and_newline (sampleEnv true true true true) sampleCtxOut sampleWorld
      "session.ctx" ⟨7⟩ ⟨3, [222, 173, 190, 239]⟩ 1 2 3 rfl rfl rfl rfl, by decide⟩

/-- C6: when an output path `q` is set and the run returns success, the file at `q`
holds exactly the first `size` bytes of the buffer of the digest the policy engine
returned for the restored session, in order, with no encoding and nothing after
them; every other file is as it was, and the single file write of the run is the
one to `q`. -/
theorem C6_output_file_holds_raw_digest {σ : Type} (E : Env σ)
    (c : tpm2_policylocality_ctx) (w : World σ) (q : String)
    (ho : c.out_policy_dgst_path = some q)
    (hs : (tpm2_tool_onrun E c w).ret = tool_rc.tool_rc_success) :
    ∃ p s t1 t2 d t3, c.session_path = some p ∧
      E.session_restore w.ectx (some p) false = (some s, t1) ∧
      E.policy_build_policylocality t1 s c.locality = (true, t2) ∧
      E.policy_get_digest t2 s = (some d, t3) ∧
      (tpm2_tool_onrun E c w).world.files q = some (d.buffer.take d.size) ∧
      (∀ r, r ≠ q → (tpm2_tool_onrun E c w).world.files r = w.files r) ∧
      (callsSince w (tpm2_tool_onrun E c w).world).filter Call.isFileSave
        = [Call.files_save_bytes_to_file q d.buffer d.size] := by
  obtain ⟨p, s, t1, t2, d, t3, hp, hr, hb, hd, hnone | ⟨q', ho', hw⟩⟩ :=
    (onrun_success_iff E c w).1 hs
  · rw [ho] at hnone; exact Option.noConfusion hnone
  · rw [ho] at ho'
    cases ho'
    refine ⟨p, s, t1, t2, d, t3, hp, hr, hb, hd, ?_⟩
    rw [onrun_write_succeeds E c w p q s d t1 t2 t3 hp hr hb hd ho hw]
    refine ⟨by simp, fun r hne => by simp [hne], ?_⟩
    simp [callsSince, Call.isFileSave]

theorem C6_output_file_holds_raw_digest_witness :
    ∃ p s t1 t2 d t3, sampleCtxOut.session_path = some p ∧
      (sampleEnv true true true true).session_restore sampleWorld.ectx (some p) false
        = (some s, t1) ∧
      (sampleEnv true true true true).policy_build_policylocality t1 s sampleCtxOut.locality
        = (true, t2) ∧
      (sampleEnv true true true true).policy_get_digest t2 s = (some d, t3) ∧
      (tpm2_tool_onrun (sampleEnv true true true true) sampleCtxOut sampleWorld).world.files
          "policy.bin" = some (d.buffer.take d.size) ∧
      (∀ r, r ≠ "policy.bin" →
        (tpm2_tool_onrun (sampleEnv true true true true) sampleCtxOut sampleWorld).world.files r
          = sampleWorld.files r) ∧
      (callsSince sampleWorld
          (tpm2_tool_onrun (sampleEnv true true true true) sampleCtxOut sampleWorld).world).filter
          Call.isFileSave
        = [Call.files_save_bytes_to_file "policy.bin" d.buffer d.size] :=
  C6_output_file_holds_raw_digest (sampleEnv true true true true) sampleCtxOut sampleWorld
    "policy.bin" rfl (by decide)

/-- C7: when the session path is set and the restore gives no session, the run
returns the general-error status and its only call is the restore itself: no
policy-engine call, no hex dump, no file write; standard output and the files are
as they were, even when an output path was supplied. -/
theorem C7_restore_failure_stops_the_run {σ : Type} (E : Env σ)
    (c : tpm2_policylocality_ctx) (w : World σ) (p : String)
    (hp : c.session_path = some p)
    (hr : (E.session_restore w.ectx (some p) false).1 = none) :
    (tpm2_tool_onrun E c w).ret = tool_rc.tool_rc_general_error ∧
    callsSince w (tpm2_tool_onrun E c w).world = [Call.tpm2_session_restore (some p) false] ∧
    (tpm2_tool_onrun E c w).world.stdout = w.stdout ∧
    (tpm2_tool_onrun E c w).world.files = w.files := by
  rw [onrun_restore_fails E c w p _ hp (Prod.ext hr rfl)]
  simp [callsSince]

theorem C7_restore_failure_stops_the_run_witness :
    (tpm2_tool_onrun (sampleEnv false true true true) sampleCtxOut sampleWorld).ret
      = tool_rc.tool_rc_general_error ∧
    callsSince sampleWorld
        (tpm2_tool_onrun (sampleEnv false true true true) sampleCtxOut sampleWorld).world
      = [Call.tpm2_session_restore (some "session.ctx") false] ∧
    (tpm2_tool_onrun (sampleEnv false true true true) sampleCtxOut sampleWorld).world.stdout
      = sampleWorld.stdout ∧
    (tpm2_tool_onrun (sampleEnv false true true true) sampleCtxOut sampleWorld).world.files
      = sampleWorld.files :=
  C7_restore_failure_stops_the_run (sampleEnv false true true true) sampleCtxOut sampleWorld
    "session.ctx" rfl rfl

/-! ## The stop callback and the whole invocation -/

/-- The run itself never frees the digest and never closes the session. -/
theorem onrun_makes_no_release {σ : Type} (E : Env σ) (c : tpm2_policylocality_ctx)
    (w : World σ) :
    ∃ evs, (tpm2_tool_onrun E c w).world.trace = w.trace ++ evs ∧
      ∀ e ∈ evs, e.isFree = false ∧ e.isSessionClose = false := by
  cases hp : c.session_path with
  | none =>
    rw [onrun_no_session_path E c w hp]
    exact ⟨_, rfl, by simp [Call.isFree, Call.isSessionClose]⟩
  | some p =>
    rcases hr : E.session_restore w.ectx (some p) false with ⟨_ | s, t1⟩
    · rw [onrun_restore_fails E c w p t1 hp hr]
      exact ⟨_, rfl, by simp [Call.isFree, Call.isSessionClose]⟩
    · rcases hb : E.policy_build_policylocality t1 s c.locality with ⟨_ | _, t2⟩
      · rw [onrun_build_fails E c w p s t1 t2 hp hr hb]
        exact ⟨_, rfl, by simp [Call.isFree, Call.isSessionClose]⟩
      · rcases hd : E.policy_get_digest t2 s with ⟨_ | d, t3⟩
        · rw [onrun_digest_fails E c w p s t1 t2 t3 hp hr hb hd]
          exact ⟨_, rfl, by simp [Call.isFree, Call.isSessionClose]⟩
        · cases ho : c.out_policy_dgst_path with
          | none =>
            rw [onrun_no_out_path E c w p s d t1 t2 t3 hp hr hb hd ho]
            exact ⟨_, rfl, by simp [Call.isFree, Call.isSessionClose]⟩
          | some q =>
            cases hw : E.file_writable t3 q
            · rw [onrun_write_fails E c w p q s d t1 t2 t3 hp hr hb hd ho hw]
              exact ⟨_, rfl, by simp [Call.isFree, Call.isSessionClose]⟩
            · rw [onrun_write_succeeds E c w p q s d t1 t2 t3 hp hr hb hd ho hw]
              exact ⟨_, rfl, by simp [Call.isFree, Call.isSessionClose]⟩

/-- The pointers the run leaves in the context once the digest was retrieved. -/
theorem onrun_pointers {σ : Type} (E : Env σ) (c : tpm2_policylocality_ctx) (w : World σ)
    (p : String) (s : tpm2_session) (d : TPM2B_DIGEST) (t1 t2 t3 : σ)
    (hp : c.session_path = some p)
    (hr : E.session_restore w.ectx (some p) false = (some s, t1))
    (hb : E.policy_build_policylocality t1 s c.locality = (true, t2))
    (hd : E.policy_get_digest t2 s = (some d, t3)) :
    (tpm2_tool_onrun E c w).ctx.policy_digest = some d ∧
    (tpm2_tool_onrun E c w).ctx.session = some s := by
  cases ho : c.out_policy_dgst_path with
  | none => rw [onrun_no_out_path E c w p s d t1 t2 t3 hp hr hb hd ho]; exact ⟨rfl, rfl⟩
  | some q =>
    cases hw : E.file_writable t3 q
    · rw [onrun_write_fails E c w p q s d t1 t2 t3 hp hr hb hd ho hw]; exact ⟨rfl, rfl⟩
    · rw [onrun_write_succeeds E c w p q s d t1 t2 t3 hp hr hb hd ho hw]; exact ⟨rfl, rfl⟩

/-- The session pointer the run leaves in the context: the answer of the restore
once validation has passed, on every way out, and the pointer it found
otherwise. -/
theorem onrun_session {σ : Type} (E : Env σ) (c : tpm2_policylocality_ctx) (w : World σ) :
    (tpm2_tool_onrun E c w).ctx.session
      = match c.session_path with
        | none => c.session
        | some p => (E.session_restore w.ectx (some p) false).1 := by
  cases hp : c.session_path with
  | none => rw [onrun_no_session_path E c w hp]
  | some p =>
    rcases hr : E.session_restore w.ectx (some p) false with ⟨_ | s, t1⟩
    · rw [onrun_restore_fails E c w p t1 hp hr]; simp [hr]
    · rcases hb : E.policy_build_policylocality t1 s c.locality with ⟨_ | _, t2⟩
      · rw [onrun_build_fails E c w p s t1 t2 hp hr hb]; simp [hr]
      · rcases hd : E.policy_get_digest t2 s with ⟨_ | d, t3⟩
        · rw [onrun_digest_fails E c w p s t1 t2 t3 hp hr hb hd]; simp [hr]
        · rw [(onrun_pointers E c w p s d t1 t2 t3 hp hr hb hd).2]; simp [hr]

/-- The digest pointer is left as the run found it unless the digest was
retrieved. -/
theorem onrun_digest_untouched {σ : Type} (E : Env σ) (c : tpm2_policylocality_ctx)
    (w : World σ)
    (h : ¬ ∃ p s t1 t2 d t3, c.session_path = some p ∧
        E.session_restore w.ectx (some p) false = (some s, t1) ∧
        E.policy_build_policylocality t1 s c.locality = (true, t2) ∧
        E.policy_get_digest t2 s = (some d, t3)) :
    (tpm2_tool_onrun E c w).ctx.policy_digest = c.policy_digest := by
  cases hp : c.session_path with
  | none => rw [onrun_no_session_path E c w hp]
  | some p =>
    rcases hr : E.session_restore w.ectx (some p) false with ⟨_ | s, t1⟩
    · rw [onrun_restore_fails E c w p t1 hp hr]
    · rcases hb : E.policy_build_policylocality t1 s c.locality with ⟨_ | _, t2⟩
      · rw [onrun_build_fails E c w p s t1 t2 hp hr hb]
      · rcases hd : E.policy_get_digest t2 s with ⟨_ | d, t3⟩
        · rw [onrun_digest_fails E c w p s t1 t2 t3 hp hr hb hd]
        · exact absurd ⟨p, s, t1, t2, d, t3, hp, hr, hb, hd⟩ h

/-- C8: in every invocation (`tpm2_tool_onrun` followed by `tpm2_tool_onstop`),
whatever the other modules answer, the calls made contain exactly one `free` and
exactly one `tpm2_session_close`; they are the last two calls, made on the digest
pointer and the session pointer the run left in the context, after every call of
the run, none of which is a `free` or a close. Whenever the restore gave a session,
whichever later step fails or none, the one close is the close of that session;
when validation or the restore failed it is the close of the pointer the context
then holds (what the restore answered, or the pointer found). When the digest was
retrieved the one `free` is the free of that digest; otherwise it is the free of
the pointer the run found in the context. -/
theorem C8_one_free_and_one_close {σ : Type} (E : Env σ) (c : tpm2_policylocality_ctx)
    (w : World σ) :
    ((callsSince w (lifecycle E c w).world).filter Call.isFree).length = 1 ∧
    ((callsSince w (lifecycle E c w).world).filter Call.isSessionClose).length = 1 ∧
    callsSince w (lifecycle E c w).world
      = callsSince w (tpm2_tool_onrun E c w).world ++
          [Call.free (tpm2_tool_onrun E c w).ctx.policy_digest,
           Call.tpm2_session_close (tpm2_tool_onrun E c w).ctx.session] ∧
    (∀ e ∈ callsSince w (tpm2_tool_onrun E c w).world,
      e.isFree = false ∧ e.isSessionClose = false) ∧
    (∀ p s t1 t2 d t3, c.session_path = some p →
      E.session_restore w.ectx (some p) false = (some s, t1) →
      E.policy_build_policylocality t1 s c.locality = (true, t2) →
      E.policy_get_digest t2 s = (some d, t3) →
      (tpm2_tool_onrun E c w).ctx.policy_digest = some d ∧
      (tpm2_tool_onrun E c w).ctx.session = some s) ∧
    (∀ p s t1, c.session_path = some p →
      E.session_restore w.ectx (some p) false = (some s, t1) →
      (tpm2_tool_onrun E c w).ctx.session = some s ∧
      (callsSince w (lifecycle E c w).world).filter Call.isSessionClose
        = [Call.tpm2_session_close (some s)]) ∧
    (tpm2_tool_onrun E c w).ctx.session
      = (match c.session_path with
        | none => c.session
        | some p => (E.session_restore w.ectx (some p) false).1) ∧
    (callsSince w (lifecycle E c w).world).filter Call.isSessionClose
      = [Call.tpm2_session_close (tpm2_tool_onrun E c w).ctx.session] ∧
    (callsSince w (lifecycle E c w).world).filter Call.isFree
      = [Call.free (tpm2_tool_onrun E c w).ctx.policy_digest] ∧
    ((¬ ∃ p s t1 t2 d t3, c.session_path = some p ∧
        E.session_restore w.ectx (some p) false = (some s, t1) ∧
        E.policy_build_policylocality t1 s c.locality = (true, t2) ∧
        E.policy_get_digest t2 s = (some d, t3)) →
      (tpm2_tool_onrun E c w).ctx.policy_digest = c.policy_digest) := by
  obtain ⟨evs, htrace, hevs⟩ := onrun_makes_no_release E c w
  have hrun : callsSince w (tpm2_tool_onrun E c w).world = evs := by
    simp [callsSince, htrace]
  have hlife : callsSince w (lifecycle E c w).world
      = evs ++ [Call.free (tpm2_tool_onrun E c w).ctx.policy_digest,
          Call.tpm2_session_close (tpm2_tool_onrun E c w).ctx.session] := by
    simp [callsSince, lifecycle, tpm2_tool_onstop, free, tpm2_session_close, htrace,
      List.append_assoc]
  have hnoFree : evs.filter Call.isFree = [] := by
    rw [List.filter_eq_nil_iff]
    intro e he
    simp [(hevs e he).1]
  have hnoClose : evs.filter Call.isSessionClose = [] := by
    rw [List.filter_eq_nil_iff]
    intro e he
    simp [(hevs e he).2]
  have hclose : (callsSince w (lifecycle E c w).world).filter Call.isSessionClose
      = [Call.tpm2_session_close (tpm2_tool_onrun E c w).ctx.session] := by
    rw [hlife, List.filter_append, hnoClose]
    simp [Call.isSessionClose]
  have hfree : (callsSince w (lifecycle E c w).world).filter Call.isFree
      = [Call.free (tpm2_tool_onrun E c w).ctx.policy_digest] := by
    rw [hlife, List.filter_append, hnoFree]
    simp [Call.isFree]
  have hsess := onrun_session E c w
  refine ⟨?_, ?_, ?_, ?_, ?_, ?_, hsess, hclose, hfree, onrun_digest_untouched E c w⟩
  · rw [hfree]; rfl
  · rw [hclose]; rfl
  · rw [hlife, hrun]
  · rw [hrun]; exact hevs
  · intro p s t1 t2 d t3 hp hr hb hd
    exact onrun_pointers E c w p s d t1 t2 t3 hp hr hb hd
  · intro p s t1 hp hr
    have hs : (tpm2_tool_onrun E c w).ctx.session = some s := by
      rw [hsess, hp]
      simp [hr]
    exact ⟨hs, by rw [hclose, hs]⟩

theorem C8_one_free_and_one_close_witness :
    ((callsSince sampleWorld
        (lifecycle (sampleEnv true false true true) sampleCtxOut sampleWorld).world).filter
        Call.isFree).length = 1 ∧
    ((callsSince sampleWorld
        (lifecycle (sampleEnv true false true true) sampleCtxOut sampleWorld).world).filter
        Call.isSessionClose).length = 1 ∧
    ((tpm2_tool_onrun (sampleEnv true false true true) sampleCtxOut sampleWorld).ctx.session
        = some ⟨7⟩ ∧
      (callsSince sampleWorld
        (lifecycle (sampleEnv true false true true) sampleCtxOut sampleWorld).world).filter
        Call.isSessionClose = [Call.tpm2_session_close (some ⟨7⟩)]) :=
  ⟨(C8_one_free_and_one_close (sampleEnv true false true true) sampleCtxOut sampleWorld).1,
   (C8_one_free_and_one_close (sampleEnv true false true true) sampleCtxOut sampleWorld).2.1,
   (C8_one_free_and_one_close (sampleEnv true false true true) sampleCtxOut
      sampleWorld).2.2.2.2.2.1 "session.ctx" ⟨7⟩ 1 rfl rfl⟩

/-! ## Error messages and the order of calls -/

/-- C9: with a session path set and a restore that gives no session, the run
returns the general-error status and logs no message at all: its only call is the
restore. The three later failures are each logged: a failed locality build, a
failed digest retrieval and a failed file write give three different messages. -/
theorem C9_restore_failure_is_not_logged :
    (tpm2_tool_onrun (sampleEnv false true true true) sampleCtx sampleWorld).ret
      = tool_rc.tool_rc_general_error ∧
    callsSince sampleWorld
        (tpm2_tool_onrun (sampleEnv false true true true) sampleCtx sampleWorld).world
      = [Call.tpm2_session_restore (some "session.ctx") false] ∧
    (callsSince sampleWorld
        (tpm2_tool_onrun (sampleEnv false true true true) sampleCtx sampleWorld).world).filter
        Call.isLog = [] ∧
    (callsSince sampleWorld
        (tpm2_tool_onrun (sampleEnv true false true true) sampleCtx sampleWorld).world).filter
        Call.isLog = [Call.LOG_ERR "Could not build TPM policy_locality"] ∧
    (callsSince sampleWorld
        (tpm2_tool_onrun (sampleEnv true true false true) sampleCtx sampleWorld).world).filter
        Call.isLog = [Call.LOG_ERR "Could not build tpm policy"] ∧
    (callsSince sampleWorld
        (tpm2_tool_onrun (sampleEnv true true true false) sampleCtxOut sampleWorld).world).filter
        Call.isLog = [Call.LOG_ERR "Failed to save policy digest into file \"policy.bin\""] := by
  decide

/-- C10: a run whose session path is set makes its calls in the order restore,
locality build, digest retrieval, hex dump (with the newline), file write, and
stops at the first failure, logging it when it is not the restore; the file write
is made only when an output path was given. The locality build is made on the
session restore returned and carries `ctx.locality`; the digest is requested for
that same session, after the build. The locality is the value `on_arg` stored:
when `on_arg` accepts, the converted argument is the new `ctx.locality` and no
other field changes. -/
theorem C10_calls_in_fixed_order {σ : Type} (E : Env σ) (c : tpm2_policylocality_ctx)
    (w : World σ) (p : String) (hp : c.session_path = some p) :
    (((E.session_restore w.ectx (some p) false).1 = none ∧
        callsSince w (tpm2_tool_onrun E c w).world
          = [Call.tpm2_session_restore (some p) false]) ∨
      ∃ s t1, E.session_restore w.ectx (some p) false = (some s, t1) ∧
        (((E.policy_build_policylocality t1 s c.locality).1 = false ∧
            callsSince w (tpm2_tool_onrun E c w).world
              = [Call.tpm2_session_restore (some p) false,
                  Call.tpm2_policy_build_policylocality s c.locality,
                  Call.LOG_ERR "Could not build TPM policy_locality"]) ∨
          ∃ t2, E.policy_build_policylocality t1 s c.locality = (true, t2) ∧
            (((E.policy_get_digest t2 s).1 = none ∧
                callsSince w (tpm2_tool_onrun E c w).world
                  = [Call.tpm2_session_restore (some p) false,
                      Call.tpm2_policy_build_policylocality s c.locality,
                      Call.tpm2_policy_get_digest s,
                      Call.LOG_ERR "Could not build tpm policy"]) ∨
              ∃ d t3, E.policy_get_digest t2 s = (some d, t3) ∧
                ((c.out_policy_dgst_path = none ∧
                    callsSince w (tpm2_tool_onrun E c w).world
                      = [Call.tpm2_session_restore (some p) false,
                          Call.tpm2_policy_build_policylocality s c.locality,
                          Call.tpm2_policy_get_digest s,
                          Call.tpm2_util_hexdump d.buffer d.size,
                          Call.tpm2_tool_output "\n"]) ∨
                  ∃ q, c.out_policy_dgst_path = some q ∧
                    ((E.file_writable t3 q = true ∧
                        callsSince w (tpm2_tool_onrun E c w).world
                          = [Call.tpm2_session_restore (some p) false,
                              Call.tpm2_policy_build_policylocality s c.locality,
                              Call.tpm2_policy_get_digest s,
                              Call.tpm2_util_hexdump d.buffer d.size,
                              Call.tpm2_tool_output "\n",
                              Call.files_save_bytes_to_file q d.buffer d.size]) ∨
                      (E.file_writable t3 q = false ∧
                        callsSince w (tpm2_tool_onrun E c w).world
                          = [Call.tpm2_session_restore (some p) false,
                              Call.tpm2_policy_build_policylocality s c.locality,
                              Call.tpm2_policy_get_digest s,
                              Call.tpm2_util_hexdump d.buffer d.size,
                              Call.tpm2_tool_output "\n",
                              Call.files_save_bytes_to_file q d.buffer d.size,
                              Call.LOG_ERR
                                ("Failed to save policy digest into file \"" ++ q ++ "\"")])))))) ∧
    (∀ (argc : Int) (argv : List String) (c0 : tpm2_policylocality_ctx) (w0 : World σ),
      (on_arg E argc argv c0 w0).ret = true →
        ∃ v, tpm2_util_string_to_uint8 E.numeral argv.head? = some v ∧
          (on_arg E argc argv c0 w0).ctx = { c0 with locality := v }) := by
  constructor
  · rcases hr : E.session_restore w.ectx (some p) false with ⟨_ | s, t1⟩
    · rw [onrun_restore_fails E c w p t1 hp hr]
      exact Or.inl ⟨rfl, by simp [callsSince]⟩
    · refine Or.inr ⟨s, t1, rfl, ?_⟩
      rcases hb : E.policy_build_policylocality t1 s c.locality with ⟨_ | _, t2⟩
      · rw [onrun_build_fails E c w p s t1 t2 hp hr hb]
        exact Or.inl ⟨rfl, by simp [callsSince]⟩
      · refine Or.inr ⟨t2, rfl, ?_⟩
        rcases hd : E.policy_get_digest t2 s with ⟨_ | d, t3⟩
        · rw [onrun_digest_fails E c w p s t1 t2 t3 hp hr hb hd]
          exact Or.inl ⟨rfl, by simp [callsSince]⟩
        · refine Or.inr ⟨d, t3, rfl, ?_⟩
          cases ho : c.out_policy_dgst_path with
          | none =>
            rw [onrun_no_out_path E c w p s d t1 t2 t3 hp hr hb hd ho]
            exact Or.inl ⟨rfl, by simp [callsSince]⟩
          | some q =>
            refine Or.inr ⟨q, rfl, ?_⟩
            cases hw : E.file_writable t3 q
            · rw [onrun_write_fails E c w p q s d t1 t2 t3 hp hr hb hd ho hw]
              exact Or.inr ⟨rfl, by simp [callsSince]⟩
            · rw [onrun_write_succeeds E c w p q s d t1 t2 t3 hp hr hb hd ho hw]
              exact Or.inl ⟨rfl, by simp [callsSince]⟩
  · intro argc argv c0 w0 ht
    unfold on_arg at ht ⊢
    by_cases h1 : argc > 1
    · simp [h1] at ht
    · by_cases h0 : argc = 0
      · simp [h0] at ht
      · cases hv : tpm2_util_string_to_uint8 E.numeral argv.head? with
        | none => simp [h1, h0, hv] at ht
        | some v => exact ⟨v, rfl, by simp [h1, h0]⟩

theorem C10_calls_in_fixed_order_witness :
    sampleCtxOut.session_path = some "session.ctx" ∧
    ((((sampleEnv true true true true).session_restore sampleWorld.ectx (some "session.ctx") false).1 = none ∧
        callsSince sampleWorld (tpm2_tool_onrun (sampleEnv true true true true) sampleCtxOut sampleWorld).world
          = [Call.tpm2_session_restore (some "session.ctx") false]) ∨
      ∃ s t1, (sampleEnv true true true true).session_restore sampleWorld.ectx (some "session.ctx") false = (some s, t1) ∧
        ((((sampleEnv true true true true).policy_build_policylocality t1 s sampleCtxOut.locality).1 = false ∧
            callsSince sampleWorld (tpm2_tool_onrun (sampleEnv true true true true) sampleCtxOut sampleWorld).world
              = [Call.tpm2_session_restore (some "session.ctx") false,
                  Call.tpm2_policy_build_policylocality s sampleCtxOut.locality,
                  Call.LOG_ERR "Could not build TPM policy_locality"]) ∨
          ∃ t2, (sampleEnv true true true true).policy_build_policylocality t1 s sampleCtxOut.locality = (true, t2) ∧
            ((((sampleEnv true true true true).policy_get_digest t2 s).1 = none ∧
                callsSince sampleWorld (tpm2_tool_onrun (sampleEnv true true true true) sampleCtxOut sampleWorld).world
                  = [Call.tpm2_session_restore (some "session.ctx") false,
                      Call.tpm2_policy_build_policylocality s sampleCtxOut.locality,
                      Call.tpm2_policy_get_digest s,
                      Call.LOG_ERR "Could not build tpm policy"]) ∨
              ∃ d t3, (sampleEnv true true true true).policy_get_digest t2 s = (some d, t3) ∧
                ((sampleCtxOut.out_policy_dgst_path = none ∧
                    callsSince sampleWorld (tpm2_tool_onrun (sampleEnv true true true true) sampleCtxOut sampleWorld).world
                      = [Call.tpm2_session_restore (some "session.ctx") false,
                          Call.tpm2_policy_build_policylocality s sampleCtxOut.locality,
                          Call.tpm2_policy_get_digest s,
                          Call.tpm2_util_hexdump d.buffer d.size,
                          Call.tpm2_tool_output "\n"]) ∨
                  ∃ q, sampleCtxOut.out_policy_dgst_path = some q ∧
                    (((sampleEnv true true true true).file_writable t3 q = true ∧
                        callsSince sampleWorld (tpm2_tool_onrun (sampleEnv true true true true) sampleCtxOut sampleWorld).world
                          = [Call.tpm2_session_restore (some "session.ctx") false,
                              Call.tpm2_policy_build_policylocality s sampleCtxOut.locality,
                              Call.tpm2_policy_get_digest s,
                              Call.tpm2_util_hexdump d.buffer d.size,
                              Call.tpm2_tool_output "\n",
                              Call.files_save_bytes_to_file q d.buffer d.size]) ∨
                      ((sampleEnv true true true true).file_writable t3 q = false ∧
                        callsSince sampleWorld (tpm2_tool_onrun (sampleEnv true true true true) sampleCtxOut sampleWorld).world
                          = [Call.tpm2_session_restore (some "session.ctx") false,
                              Call.tpm2_policy_build_policylocality s sampleCtxOut.locality,
                              Call.tpm2_policy_get_digest s,
                              Call.tpm2_util_hexdump d.buffer d.size,
                              Call.tpm2_tool_output "\n",
                              Call.files_save_bytes_to_file q d.buffer d.size,
                              Call.LOG_ERR
                                ("Failed to save policy digest into file \"" ++ q ++ "\"")])))))) :=
  ⟨rfl, (C10_calls_in_fixed_order (sampleEnv true true true true) sampleCtxOut sampleWorld
    "session.ctx" rfl).1⟩

end PolicyLocality
